import Mathlib

/-!
Shallow embedding of the navigation and view-state management core of the
managarr TUI client, together with proofs about it.

Sources embedded:
- src/src/models/mod.rs : StatefulList / StatefulTable (the stateful_iterable
  macro expansion), ScrollableText, HorizontallyScrollableText, Route.
- src/src/app/radarr.rs : ActiveRadarrBlock, the add-movie wizard step
  functions, dispatch_by_radarr_block, check_for_prompt_action,
  radarr_on_tick, refresh_metadata, populate_movie_collection_table.
- src/src/handlers/radarr_handlers/mod.rs : the search_table and filter_table
  macro bodies.

Machine integers: the Rust code uses usize and u16; indices are modelled as
Nat, and the one place where a u16 cast matters (ScrollableText's
`(len - 1) as u16`) carries an explicit `% 65536`.  A Rust panic (index out
of bounds, integer underflow with overflow checks) is modelled by an
Option-valued function returning `none`.
-/

namespace Managarr

/-!  Stateful collections, from src/src/models/mod.rs lines 36-138.
The `stateful_iterable!` macro generates the same code for `StatefulList`
(ListState) and `StatefulTable` (TableState); the only part of the tui
state read or written by that code is `selected() : Option<usize>` /
`select(Option<usize>)`, which is the `state` field here. -/

structure StatefulList (T : Type) where
  state : Option Nat
  items : List T
deriving DecidableEq, Repr

/-- Rust `StatefulList::default()` / `StatefulTable::default()`: empty items,
no selection. -/
def StatefulList.mkDefault (T : Type) : StatefulList T := ⟨none, []⟩

/-- src/src/models/mod.rs lines 45-62 (`scroll_down` of the macro expansion). -/
def StatefulList.scroll_down (s : StatefulList T) : StatefulList T :=
  if s.items.isEmpty then s
  else
    let selected_row :=
      match s.state with
      | some i => if s.items.length - 1 ≤ i then 0 else i + 1
      | none => 0
    { s with state := some selected_row }

/-- src/src/models/mod.rs lines 64-81 (`scroll_up`). -/
def StatefulList.scroll_up (s : StatefulList T) : StatefulList T :=
  if s.items.isEmpty then s
  else
    let selected_row :=
      match s.state with
      | some i => if i = 0 then s.items.length - 1 else i - 1
      | none => 0
    { s with state := some selected_row }

/-- src/src/models/mod.rs lines 83-89 (`scroll_to_top`). -/
def StatefulList.scroll_to_top (s : StatefulList T) : StatefulList T :=
  if s.items.isEmpty then s else { s with state := some 0 }

/-- src/src/models/mod.rs lines 91-97 (`scroll_to_bottom`). -/
def StatefulList.scroll_to_bottom (s : StatefulList T) : StatefulList T :=
  if s.items.isEmpty then s else { s with state := some (s.items.length - 1) }

/-- src/src/models/mod.rs lines 104-119 (`set_items`).  `items_len` is the
length of the incoming vector; the selection is recomputed only when the new
items are non-empty. -/
def StatefulList.set_items (s : StatefulList T) (items : List T) : StatefulList T :=
  let items_len := items.length
  let s := { s with items := items }
  if s.items.isEmpty then s
  else
    let selected_row :=
      match s.state with
      | none => 0
      | some i =>
        if 0 < i ∧ i < items_len then i
        else if items_len ≤ i then items_len - 1
        else 0
    { s with state := some selected_row }

/-- src/src/models/mod.rs lines 121-123:
`&self.items[self.state.selected().unwrap_or(0)]`.  Rust indexing panics when
the index is out of bounds (in particular on an empty collection); the panic
is modelled by `none`. -/
def StatefulList.current_selection? (s : StatefulList T) : Option T :=
  s.items.get? (s.state.getD 0)

/-- src/src/models/mod.rs lines 135-137 (`select_index`, StatefulTable only). -/
def StatefulList.select_index (s : StatefulList T) (index : Option Nat) : StatefulList T :=
  { s with state := index }

/-- src/src/models/mod.rs line 129: `stateful_iterable!(StatefulTable, TableState)`
expands to code identical to StatefulList. -/
abbrev StatefulTable := StatefulList

/-- The safety predicate of spec §8 P1: the selected index is in bounds
whenever the items are non-empty, and "no selection" is exposed only when
empty. -/
def selection_inv (s : StatefulList T) : Prop :=
  (s.items ≠ [] → ∃ i, s.state = some i ∧ i < s.items.length) ∧
  (s.state = none → s.items = [])

/-!  ScrollableText, src/src/models/mod.rs lines 140-186.
`offset` is a u16 in the source; the cast `(items.len() - 1) as u16` is
modelled with `% 65536`. -/

structure ScrollableText where
  items : List String
  offset : Nat
deriving DecidableEq, Repr

def ScrollableText.mkDefault : ScrollableText := ⟨[], 0⟩

/-- src/src/models/mod.rs lines 159-167. -/
def ScrollableText.scroll_down (t : ScrollableText) : ScrollableText :=
  if t.items.isEmpty then t
  else if t.offset < (t.items.length - 1) % 65536 then { t with offset := t.offset + 1 }
  else t

/-- src/src/models/mod.rs lines 169-177. -/
def ScrollableText.scroll_up (t : ScrollableText) : ScrollableText :=
  if t.items.isEmpty then t
  else if 0 < t.offset then { t with offset := t.offset - 1 }
  else t

/-- src/src/models/mod.rs lines 179-181: unconditional `offset = 0`. -/
def ScrollableText.scroll_to_top (t : ScrollableText) : ScrollableText :=
  { t with offset := 0 }

/-- src/src/models/mod.rs lines 183-185:
`self.offset = (self.items.len() - 1) as u16` with no emptiness guard.  On an
empty collection `items.len() - 1` underflows usize, a panic under Rust
overflow checks; modelled by `none`. -/
def ScrollableText.scroll_to_bottom? (t : ScrollableText) : Option ScrollableText :=
  if t.items.isEmpty then none
  else some { t with offset := (t.items.length - 1) % 65536 }

end Managarr

namespace Managarr

/-!  HorizontallyScrollableText, src/src/models/mod.rs lines 188-285.
The text is modelled as its character sequence; `text.len()` (a byte count in
Rust) agrees with the character count for the ASCII titles the claims are
about, and the `offset` RefCell is an ordinary field of the model. -/

structure HorizontallyScrollableText where
  text : List Char
  offset : Nat
deriving DecidableEq, Repr

/-- src/src/models/mod.rs lines 233-238. -/
def HorizontallyScrollableText.scroll_left
    (t : HorizontallyScrollableText) : HorizontallyScrollableText :=
  if t.offset < t.text.length then { t with offset := t.offset + 1 } else t

/-- src/src/models/mod.rs lines 240-245. -/
def HorizontallyScrollableText.scroll_right
    (t : HorizontallyScrollableText) : HorizontallyScrollableText :=
  if 0 < t.offset then { t with offset := t.offset - 1 } else t

/-- src/src/models/mod.rs lines 251-253. -/
def HorizontallyScrollableText.reset_offset
    (t : HorizontallyScrollableText) : HorizontallyScrollableText :=
  { t with offset := 0 }

/-- src/src/models/mod.rs lines 255-265 (`scroll_left_or_reset`). -/
def HorizontallyScrollableText.scroll_left_or_reset
    (t : HorizontallyScrollableText) (width : Nat)
    (is_current_selection can_scroll : Bool) : HorizontallyScrollableText :=
  if can_scroll && is_current_selection && decide (width ≤ t.text.length) then
    if t.offset < t.text.length then t.scroll_left else HorizontallyScrollableText.reset_offset t
  else if (t.offset != 0) && !is_current_selection then HorizontallyScrollableText.reset_offset t
  else t

/-- One tick-driven marquee advance: `scroll_left_or_reset` invoked for the
current selection with scrolling enabled (spec §4.2 marquee mode). -/
def marquee_advance (width : Nat) (t : HorizontallyScrollableText) :
    HorizontallyScrollableText :=
  t.scroll_left_or_reset width true true

/-!  Block identity, src/src/app/radarr.rs lines 333-387. -/

inductive ActiveRadarrBlock where
  | AddMovieAlreadyInLibrary
  | AddMovieSearchInput
  | AddMovieSearchResults
  | AddMoviePrompt
  | AddMovieSelectMinimumAvailability
  | AddMovieSelectQualityProfile
  | AddMovieSelectMonitor
  | AddMovieSelectRootFolder
  | AddMovieConfirmPrompt
  | AddMovieTagsInput
  | AddMovieEmptySearchResults
  | AddRootFolderPrompt
  | AutomaticallySearchMoviePrompt
  | Collections
  | CollectionDetails
  | Cast
  | Crew
  | DeleteMoviePrompt
  | DeleteDownloadPrompt
  | DeleteRootFolderPrompt
  | Downloads
  | EditCollectionPrompt
  | EditCollectionConfirmPrompt
  | EditCollectionRootFolderPathInput
  | EditCollectionSelectMinimumAvailability
  | EditCollectionSelectQualityProfile
  | EditCollectionToggleSearchOnAdd
  | EditCollectionToggleMonitored
  | EditMoviePrompt
  | EditMovieConfirmPrompt
  | EditMoviePathInput
  | EditMovieSelectMinimumAvailability
  | EditMovieSelectQualityProfile
  | EditMovieTagsInput
  | EditMovieToggleMonitored
  | FileInfo
  | FilterCollections
  | FilterMovies
  | ManualSearch
  | ManualSearchSortPrompt
  | ManualSearchConfirmPrompt
  | MovieDetails
  | MovieHistory
  | Movies
  | RootFolders
  | UpdateAndScanPrompt
  | UpdateAllCollectionsPrompt
  | UpdateAllMoviesPrompt
  | UpdateDownloadsPrompt
  | SearchMovie
  | SearchCollection
  | ViewMovieOverview
deriving DecidableEq, Repr

/-- src/src/models/mod.rs lines 17-27 (`Route`). -/
inductive Route where
  | Radarr (block : ActiveRadarrBlock) (context : Option ActiveRadarrBlock)
  | Sonarr
  | Readarr
  | Lidarr
  | Whisparr
  | Bazarr
  | Prowlarr
  | Tautulli
deriving DecidableEq, Repr

/-- src/src/app/radarr.rs lines 553-557 (`From<ActiveRadarrBlock> for Route`). -/
def ActiveRadarrBlock.toRoute (b : ActiveRadarrBlock) : Route := Route.Radarr b none

/-- src/src/app/radarr.rs lines 445-458 (`next_add_movie_prompt_block`). -/
def ActiveRadarrBlock.next_add_movie_prompt_block :
    ActiveRadarrBlock → ActiveRadarrBlock
  | .AddMovieSelectRootFolder => .AddMovieSelectMonitor
  | .AddMovieSelectMonitor => .AddMovieSelectMinimumAvailability
  | .AddMovieSelectMinimumAvailability => .AddMovieSelectQualityProfile
  | .AddMovieSelectQualityProfile => .AddMovieTagsInput
  | .AddMovieTagsInput => .AddMovieConfirmPrompt
  | _ => .AddMovieSelectRootFolder

/-- src/src/app/radarr.rs lines 496-510 (`previous_add_movie_prompt_block`). -/
def ActiveRadarrBlock.previous_add_movie_prompt_block :
    ActiveRadarrBlock → ActiveRadarrBlock
  | .AddMovieSelectRootFolder => .AddMovieConfirmPrompt
  | .AddMovieSelectMonitor => .AddMovieSelectRootFolder
  | .AddMovieSelectMinimumAvailability => .AddMovieSelectMonitor
  | .AddMovieSelectQualityProfile => .AddMovieSelectMinimumAvailability
  | .AddMovieTagsInput => .AddMovieSelectQualityProfile
  | .AddMovieConfirmPrompt => .AddMovieTagsInput
  | _ => .AddMovieSelectRootFolder

/-- The blocks matched by a named arm of `next_add_movie_prompt_block` (every
other block falls to the defensive `_ => AddMovieSelectRootFolder` arm). -/
def add_movie_prompt_matched_blocks : List ActiveRadarrBlock :=
  [.AddMovieSelectRootFolder, .AddMovieSelectMonitor,
   .AddMovieSelectMinimumAvailability, .AddMovieSelectQualityProfile,
   .AddMovieTagsInput]

/-- Modelled from the spec: the `RadarrEvent` enumeration is declared in
src/network/radarr_network.rs, which is not among the included sources.  The
spec (§6) says the core knows only event identity; the variants here are
exactly the ones referenced from the included sources. -/
inductive RadarrEvent where
  | AddMovie
  | GetCollections
  | GetDownloads
  | GetMovieCredits
  | GetMovieDetails
  | GetMovieHistory
  | GetMovies
  | GetOverview
  | GetQualityProfiles
  | GetReleases
  | GetRootFolders
  | GetStatus
  | GetTags
  | HealthCheck
  | RefreshAndScan
  | SearchNewMovie
  | TriggerAutomaticSearch
deriving DecidableEq, Repr

/-!  The slice of the application state read or written by the dispatcher in
src/src/app/radarr.rs lines 565-717.  Domain payload types (Collection,
CollectionMovie, Credit, Release, declared in src/models/radarr_models.rs,
which is not among the included sources) are reduced to the fields the
dispatcher actually touches, as the spec (§1) excludes domain model fields
beyond what invariants need. -/

structure CollectionMovie where
  tmdb_id : Int
deriving DecidableEq, Repr

structure Collection where
  movies : Option (List CollectionMovie)
deriving DecidableEq, Repr

structure Credit where
  person : List Char
deriving DecidableEq, Repr

structure Release where
  title : List Char
deriving DecidableEq, Repr

/-- The fields of RadarrData (src/src/app/radarr.rs lines 15-56) used by the
dispatcher. -/
structure RadarrDataD where
  movie_cast : StatefulTable Credit
  movie_crew : StatefulTable Credit
  movie_releases : StatefulTable Release
  collections : StatefulTable Collection
  filtered_collections : StatefulTable Collection
  collection_movies : StatefulTable CollectionMovie
  prompt_confirm : Bool
  prompt_confirm_action : Option RadarrEvent
deriving DecidableEq, Repr

/-- Mirrors `self.data.radarr_data` nesting of the App struct. -/
structure AppData where
  radarr_data : RadarrDataD
deriving DecidableEq, Repr

/-- The fields of App (declared in src/app/mod.rs, not among the included
sources; the fields and their meaning are those read by the functions of
src/src/app/radarr.rs and spec §4.6) together with the list of network events
dispatched so far is threaded separately as the cycle's output. -/
structure App where
  data : AppData
  is_loading : Bool
  should_refresh : Bool
  is_routing : Bool
  tick_count : Nat
  tick_until_poll : Nat
deriving DecidableEq, Repr

/-- src/src/app/radarr.rs lines 691-716 (`populate_movie_collection_table`).
`current_selection` panics (models as `none`) when the chosen collection table
cannot be indexed. -/
def populate_movie_collection_table (app : App) : Option App :=
  let chosen :=
    if ¬ app.data.radarr_data.filtered_collections.items.isEmpty then
      app.data.radarr_data.filtered_collections.current_selection?
    else
      app.data.radarr_data.collections.current_selection?
  match chosen with
  | none => none
  | some c =>
    let collection_movies := c.movies.getD []
    some { app with
           data.radarr_data.collection_movies :=
             app.data.radarr_data.collection_movies.set_items collection_movies }

/-- src/src/app/radarr.rs lines 634-643 (`check_for_prompt_action`).  Returns
the updated state and the network events fired. -/
def check_for_prompt_action (app : App) : App × List RadarrEvent :=
  if app.data.radarr_data.prompt_confirm then
    let app := { app with data.radarr_data.prompt_confirm := false }
    match app.data.radarr_data.prompt_confirm_action with
    | some radarr_event =>
      ({ app with should_refresh := true,
                  data.radarr_data.prompt_confirm_action := none },
       [radarr_event])
    | none => (app, [])
  else (app, [])

/-- Modelled from the spec: `reset_tick_count` lives in src/app/mod.rs, which
is not among the included sources; per spec §4.6 step 3 it resets the
ticks-since-last-dispatch counter. -/
def reset_tick_count (app : App) : App :=
  { app with tick_count := 0 }

/-- The per-block arm of src/src/app/radarr.rs lines 567-628: the state
change and the fetch events issued by the block match of
`dispatch_by_radarr_block`, before the confirmation check. -/
def dispatch_block_effects (b : ActiveRadarrBlock) (app : App) :
    Option (App × List RadarrEvent) :=
  match b with
  | .Collections => some (app, [.GetCollections])
  | .CollectionDetails =>
    match populate_movie_collection_table { app with is_loading := true } with
    | none => none
    | some app => some ({ app with is_loading := false }, [])
  | .Downloads => some (app, [.GetDownloads])
  | .RootFolders => some (app, [.GetRootFolders])
  | .Movies => some (app, [.GetMovies, .GetDownloads])
  | .AddMovieSearchResults => some (app, [.SearchNewMovie])
  | .MovieDetails => some (app, [.GetMovieDetails])
  | .FileInfo => some (app, [.GetMovieDetails])
  | .MovieHistory => some (app, [.GetMovieHistory])
  | .Cast | .Crew =>
    if app.data.radarr_data.movie_cast.items.isEmpty
        || app.data.radarr_data.movie_crew.items.isEmpty then
      some (app, [.GetMovieCredits])
    else some (app, [])
  | .ManualSearch =>
    if app.data.radarr_data.movie_releases.items.isEmpty then
      some (app, [.GetReleases])
    else some (app, [])
  | _ => some (app, [])

/-- src/src/app/radarr.rs lines 566-632 (`dispatch_by_radarr_block`): the
block arm, then `check_for_prompt_action`, then `reset_tick_count`; the
events are emitted in that order. -/
def dispatch_by_radarr_block (b : ActiveRadarrBlock) (app : App) :
    Option (App × List RadarrEvent) :=
  match dispatch_block_effects b app with
  | none => none
  | some (app, evs) =>
    let prompt := check_for_prompt_action app
    some (reset_tick_count prompt.1, evs ++ prompt.2)

/-- src/src/app/radarr.rs lines 679-689 (`refresh_metadata`). -/
def refresh_metadata (app : App) : App × List RadarrEvent :=
  (app, [.GetQualityProfiles, .GetTags, .GetDownloads])

/-- The fixed reference set unconditionally fetched on first render,
src/src/app/radarr.rs lines 650-665. -/
def first_render_reference_events : List RadarrEvent :=
  [.GetQualityProfiles, .GetTags, .GetRootFolders, .GetOverview, .GetStatus]

/-- src/src/app/radarr.rs lines 645-677 (`radarr_on_tick`). -/
def radarr_on_tick (b : ActiveRadarrBlock) (is_first_render : Bool)
    (app : App) : Option (App × List RadarrEvent) :=
  let first : Option (App × List RadarrEvent) :=
    if is_first_render then
      match dispatch_by_radarr_block b app with
      | none => none
      | some (app, evs) => some (app, first_render_reference_events ++ evs)
    else some (app, [])
  match first with
  | none => none
  | some (app, evs₁) =>
    let second : Option (App × List RadarrEvent) :=
      if app.should_refresh then dispatch_by_radarr_block b app
      else some (app, [])
    match second with
    | none => none
    | some (app, evs₂) =>
      if app.is_routing || app.tick_count % app.tick_until_poll == 0 then
        match dispatch_by_radarr_block b app with
        | none => none
        | some (app, evs₃) =>
          let meta := refresh_metadata app
          some (meta.1, evs₁ ++ evs₂ ++ evs₃ ++ meta.2)
      else some (app, evs₁ ++ evs₂)

/-!  Search and filter, src/src/handlers/radarr_handlers/mod.rs lines
117-211 (the `search_table!` and `filter_table!` macro bodies).  The macros
are generic over the collection (`$data_ref` / `$source_table_ref` /
`$filter_table_ref`) and the error block; the items they touch only through
`item.title.text`, modelled by `TitledItem`. -/

structure TitledItem where
  title : List Char
deriving DecidableEq, Repr

/-- Rust `str::to_lowercase` restricted to the character-list model. -/
def to_lowercase (s : List Char) : List Char :=
  s.map Char.toLower

/-- Modelled from the spec: `strip_non_search_characters` is declared outside
the included sources (only its call sites appear in
src/src/handlers/radarr_handlers/mod.rs).  Per spec §4.7 it lowercases and
strips characters considered non-search such as punctuation, keeping
alphanumerics and spaces. -/
def strip_non_search_characters (s : List Char) : List Char :=
  (s.map Char.toLower).filter fun c => c.isAlphanum || c == ' '

/-- Rust `str::contains(&str)`: the needle occurs as a contiguous substring
of the haystack. -/
def contains_substring (hay needle : List Char) : Bool :=
  (List.range (hay.length + 1)).any fun i =>
    decide ((hay.drop i).take needle.length = needle)

/-- Modelled from the spec: `App::pop_navigation_stack` lives in
src/app/mod.rs, not among the included sources.  Per spec §4.3, pop removes
the top route but fails silently (no-op) when only one route remains.  The
head of the list is the top of the stack. -/
def pop_navigation_stack : List Route → List Route
  | _ :: second :: rest => second :: rest
  | ns => ns

/-- Modelled from the spec: `App::pop_and_push_navigation_stack` lives in
src/app/mod.rs, not among the included sources.  Per spec §4.3 it atomically
replaces the top route, leaving the history beneath undisturbed. -/
def pop_and_push_navigation_stack (ns : List Route) (r : Route) : List Route :=
  match ns with
  | _ :: rest => r :: rest
  | [] => [r]

/-- The slice of App touched by the `search_table!` macro body: the stored
query (`search: Option<HorizontallyScrollableText>`, kept as its text), the
searching flag, the quit-key flag, the `$data_ref` collection and the
navigation stack. -/
structure SearchApp where
  search : Option (List Char)
  is_searching : Bool
  should_ignore_quit_key : Bool
  table : StatefulTable TitledItem
  navigation_stack : List Route
deriving DecidableEq, Repr

/-- src/src/handlers/radarr_handlers/mod.rs lines 118-154 (`search_table!`).
Note the query is lowercased (`.to_lowercase()`) but, unlike the item text,
not passed through `strip_non_search_characters`. -/
def search_table (app : SearchApp) (error_block : Route) : SearchApp :=
  let step :=
    match app.search with
    | some q =>
      let search_string := to_lowercase q
      let app := { app with search := none }
      (app,
       app.table.items.findIdx? fun (item : TitledItem) =>
         contains_substring (strip_non_search_characters item.title) search_string)
    | none => (app, none)
  let app := { step.1 with is_searching := false, should_ignore_quit_key := false }
  match step.2 with
  | some _ =>
    { app with
      navigation_stack := pop_navigation_stack app.navigation_stack,
      table := app.table.select_index step.2 }
  | none =>
    { app with
      navigation_stack := pop_and_push_navigation_stack app.navigation_stack error_block }

/-- Refinement of the CLAIM's wording, not of the source: the index of the
first item whose stripped text contains the also-stripped lowercase query
(claim C4 and spec §4.7 "Search").  Compare with the predicate inside
`search_table`, whose query is only lowercased. -/
def search_index_per_claim (items : List TitledItem) (q : List Char) : Option Nat :=
  items.findIdx? fun (item : TitledItem) =>
    contains_substring (strip_non_search_characters item.title)
      (strip_non_search_characters (to_lowercase q))

/-- The slice of App touched by the `filter_table!` macro body. -/
structure FilterApp where
  filter : Option (List Char)
  is_filtering : Bool
  should_ignore_quit_key : Bool
  source_table : StatefulTable TitledItem
  filtered_table : StatefulTable TitledItem
  navigation_stack : List Route
deriving DecidableEq, Repr

/-- src/src/handlers/radarr_handlers/mod.rs lines 157-211 (`filter_table!`).
Here the query is passed through `strip_non_search_characters` before
matching. -/
def filter_table (app : FilterApp) (error_block : Route) : FilterApp :=
  let empty_filter : Bool :=
    match app.filter with
    | some q => q.isEmpty
    | none => false
  let filter_matches : List TitledItem :=
    match app.filter with
    | some q =>
      if q.isEmpty then []
      else
        let f := strip_non_search_characters q
        app.source_table.items.filter fun (item : TitledItem) =>
          contains_substring (strip_non_search_characters item.title) f
    | none => []
  let app := { app with filter := none, is_filtering := false,
                        should_ignore_quit_key := false }
  if filter_matches.isEmpty && !empty_filter then
    { app with
      navigation_stack := pop_and_push_navigation_stack app.navigation_stack error_block }
  else if empty_filter then
    { app with navigation_stack := pop_navigation_stack app.navigation_stack }
  else
    { app with
      navigation_stack := pop_navigation_stack app.navigation_stack,
      filtered_table := app.filtered_table.set_items filter_matches }

/-!  Concrete states used to evaluate the definitions on explicit inputs. -/

def sample_error_route : Route := Route.Radarr .AddMovieEmptySearchResults none

def sample_movies_route : Route := Route.Radarr .Movies none

def sample_search_route : Route := Route.Radarr .SearchMovie none

def sample_filter_route : Route := Route.Radarr .FilterMovies none

def sample_radarr_data : RadarrDataD :=
  { movie_cast := ⟨none, []⟩
    movie_crew := ⟨none, []⟩
    movie_releases := ⟨none, []⟩
    collections := ⟨none, []⟩
    filtered_collections := ⟨none, []⟩
    collection_movies := ⟨none, []⟩
    prompt_confirm := false
    prompt_confirm_action := none }

/-- A state with a pending confirmation `(true, Some(RefreshAndScan))`. -/
def sample_prompt_app : App :=
  { data := { radarr_data :=
      { sample_radarr_data with
        prompt_confirm := true
        prompt_confirm_action := some .RefreshAndScan } }
    is_loading := false
    should_refresh := false
    is_routing := false
    tick_count := 3
    tick_until_poll := 5 }

/-- A state that is routing, with no pending refresh or confirmation. -/
def sample_routing_app : App :=
  { data := { radarr_data := sample_radarr_data }
    is_loading := false
    should_refresh := false
    is_routing := true
    tick_count := 3
    tick_until_poll := 5 }

/-- A state that is not routing but whose tick counter has reached the
polling interval (10 mod 5 = 0), with no pending refresh or confirmation. -/
def sample_tick_app : App :=
  { data := { radarr_data := sample_radarr_data }
    is_loading := false
    should_refresh := false
    is_routing := false
    tick_count := 10
    tick_until_poll := 5 }

def apple_item : TitledItem := ⟨['A', 'p', 'p', 'l', 'e']⟩

def banana_item : TitledItem := ⟨['B', 'a', 'n', 'a', 'n', 'a']⟩

/-- Items ["Apple", "Banana"] with stored query "ban" (the example of
spec §8 P5). -/
def sample_search_app : SearchApp :=
  { search := some ['b', 'a', 'n']
    is_searching := true
    should_ignore_quit_key := true
    table := ⟨none, [apple_item, banana_item]⟩
    navigation_stack := [sample_search_route, sample_movies_route] }

/-- One item titled "A.B" with stored query "A.B": stripping removes the
dot from the item text but the query is only lowercased. -/
def cx_search_app : SearchApp :=
  { search := some ['A', '.', 'B']
    is_searching := true
    should_ignore_quit_key := true
    table := ⟨none, [⟨['A', '.', 'B']⟩]⟩
    navigation_stack := [sample_search_route, sample_movies_route] }

/-- Items ["Apple", "Banana"] with stored filter query "ban" (the example of
spec §8 P6). -/
def sample_filter_app : FilterApp :=
  { filter := some ['b', 'a', 'n']
    is_filtering := true
    should_ignore_quit_key := true
    source_table := ⟨some 0, [apple_item, banana_item]⟩
    filtered_table := ⟨none, []⟩
    navigation_stack := [sample_filter_route, sample_movies_route] }

/-- A marquee text of character length 1, displayed at width 1. -/
def cx_marquee_text : HorizontallyScrollableText := ⟨['a'], 0⟩

end Managarr

namespace Managarr

/-!  Lemmas about StatefulList / StatefulTable. -/

theorem set_items_nil {T : Type} (s : StatefulList T) :
    s.set_items [] = ⟨s.state, []⟩ := rfl

theorem set_items_state_none {T : Type} (s : StatefulList T) (a : T) (l : List T)
    (h : s.state = none) : s.set_items (a :: l) = ⟨some 0, a :: l⟩ := by
  obtain ⟨st, its⟩ := s
  cases h
  rfl

theorem set_items_state_some {T : Type} (s : StatefulList T) (a : T) (l : List T)
    (i : Nat) (h : s.state = some i) :
    s.set_items (a :: l) =
      ⟨some (if 0 < i ∧ i < (a :: l).length then i
             else if (a :: l).length ≤ i then (a :: l).length - 1
             else 0),
       a :: l⟩ := by
  obtain ⟨st, its⟩ := s
  cases h
  rfl

theorem set_items_items {T : Type} (s : StatefulList T) (l : List T) :
    (s.set_items l).items = l := by
  cases l with
  | nil => rfl
  | cons a t =>
    cases h : s.state with
    | none => rw [set_items_state_none s a t h]
    | some i => rw [set_items_state_some s a t i h]

theorem selection_inv_set_items {T : Type} (s : StatefulList T) (l : List T) :
    selection_inv (s.set_items l) := by
  cases l with
  | nil =>
    rw [set_items_nil]
    exact ⟨fun h => absurd rfl h, fun _ => rfl⟩
  | cons a t =>
    cases h : s.state with
    | none =>
      rw [set_items_state_none s a t h]
      exact ⟨fun _ => ⟨0, rfl, by simp⟩, fun h => by cases h⟩
    | some i =>
      rw [set_items_state_some s a t i h]
      refine ⟨fun _ => ⟨_, rfl, ?_⟩, fun h => by cases h⟩
      simp only [List.length_cons]
      split_ifs <;> omega

theorem selection_inv_foldl {T : Type} (lss : List (List T)) (s : StatefulList T)
    (h : selection_inv s) :
    selection_inv (lss.foldl StatefulList.set_items s) := by
  induction lss generalizing s with
  | nil => exact h
  | cons a t ih => exact ih _ (selection_inv_set_items s a)

/-- C1: after `set_items(new_items)` with non-empty `new_items`, a previously
selected index is preserved when still valid, clamped to the new last index
when the sequence shrank, and reset to the first index when previously
unselected; `set_items` is idempotent; and after the call, under any further
sequence of `set_items` calls, the selected index is in bounds whenever the
items are non-empty (spec §8 P1). -/
theorem c1_set_items_selection {T : Type} (s : StatefulList T) (l : List T)
    (hl : l ≠ []) :
    (∀ i, s.state = some i → i < l.length → (s.set_items l).state = some i) ∧
    (∀ i, s.state = some i → l.length ≤ i →
        (s.set_items l).state = some (l.length - 1)) ∧
    (s.state = none → (s.set_items l).state = some 0) ∧
    (s.set_items l).set_items l = s.set_items l ∧
    ∀ lss : List (List T),
      selection_inv (lss.foldl StatefulList.set_items (s.set_items l)) := by
  obtain ⟨a, t, rfl⟩ : ∃ a t, l = a :: t := by
    cases l with
    | nil => exact absurd rfl hl
    | cons a t => exact ⟨a, t, rfl⟩
  refine ⟨?_, ?_, ?_, ?_, ?_⟩
  · intro i h hi
    rw [set_items_state_some s a t i h]
    simp only [List.length_cons] at hi ⊢
    split_ifs <;> simp only [Option.some.injEq] <;> omega
  · intro i h hi
    rw [set_items_state_some s a t i h]
    simp only [List.length_cons] at hi ⊢
    split_ifs <;> simp only [Option.some.injEq] <;> omega
  · intro h
    rw [set_items_state_none s a t h]
  · obtain ⟨j, hj, hjlt⟩ :=
      (selection_inv_set_items s (a :: t)).1 (by rw [set_items_items]; simp)
    have hitems := set_items_items s (a :: t)
    cases hE : s.set_items (a :: t) with
    | mk st₁ its₁ =>
      rw [hE] at hj hjlt hitems
      simp only at hj hjlt hitems
      subst hj hitems
      rw [set_items_state_some _ a t j rfl]
      simp only [List.length_cons] at hjlt ⊢
      split_ifs <;> simp only [StatefulList.mk.injEq, Option.some.injEq,
        and_true] <;> omega
  · intro lss
    exact selection_inv_foldl lss _ (selection_inv_set_items s (a :: t))

/-- C1 witness: a stale selection 5 on a two-item list, replaced by a
one-item list, is clamped to the new last index 0. -/
theorem c1_set_items_selection_witness :
    ((⟨some 5, [10, 20]⟩ : StatefulList Nat).set_items [30]).state = some 0 :=
  (c1_set_items_selection (⟨some 5, [10, 20]⟩ : StatefulList Nat) [30]
    (by decide)).2.1 5 rfl (by decide)

/-- C10: `set_items` with an empty vector replaces the items with the empty
vector but leaves the stored selection state exactly as it was, so an empty
collection can still carry a stale selection index. -/
theorem c10_set_items_empty_keeps_stale_selection {T : Type} (s : StatefulList T) :
    (s.set_items []).items = [] ∧ (s.set_items []).state = s.state :=
  ⟨rfl, rfl⟩

/-- C2 counterexample: the claim says `current_selection` on an empty
collection and every `Scrollable` operation on an empty collection are
handled safely, never as a panic.  But `current_selection` on the empty
default indexes `items[0]` of an empty vector (an out-of-bounds panic,
modelled by `none`), and `ScrollableText::scroll_to_bottom` on the empty
default computes `items.len() - 1 = 0usize - 1` (an underflow, modelled by
`none`). -/
theorem c2_empty_access_panics_cx :
    (StatefulList.mkDefault Nat).current_selection? = none ∧
    ScrollableText.mkDefault.scroll_to_bottom? = none :=
  ⟨rfl, rfl⟩

/-- C2 amended: on an empty StatefulList/StatefulTable the four `Scrollable`
operations are no-ops, and on an empty `ScrollableText` `scroll_down`,
`scroll_up` are no-ops and `scroll_to_top` is the safe default offset 0; but
`current_selection` on an empty collection panics (out-of-bounds index), and
`ScrollableText::scroll_to_bottom` on an empty collection underflows instead
of being a no-op. -/
theorem c2_empty_collection_ops {T : Type} (s : StatefulList T)
    (t : ScrollableText) (hs : s.items = []) (ht : t.items = []) :
    s.scroll_down = s ∧ s.scroll_up = s ∧ s.scroll_to_top = s ∧
    s.scroll_to_bottom = s ∧ s.current_selection? = none ∧
    t.scroll_down = t ∧ t.scroll_up = t ∧
    t.scroll_to_top = { t with offset := 0 } ∧
    t.scroll_to_bottom? = none := by
  obtain ⟨st, its⟩ := s
  obtain ⟨tits, toff⟩ := t
  simp only at hs ht
  subst hs ht
  refine ⟨rfl, rfl, rfl, rfl, ?_, rfl, rfl, rfl, rfl⟩
  cases st <;> rfl

/-- C2 amended witness: the empty list with a stale selection index and an
empty text pane with a nonzero offset. -/
theorem c2_empty_collection_ops_witness :
    (⟨some 3, []⟩ : StatefulList Nat).scroll_down = ⟨some 3, []⟩ ∧
    (⟨some 3, []⟩ : StatefulList Nat).scroll_up = ⟨some 3, []⟩ ∧
    (⟨some 3, []⟩ : StatefulList Nat).scroll_to_top = ⟨some 3, []⟩ ∧
    (⟨some 3, []⟩ : StatefulList Nat).scroll_to_bottom = ⟨some 3, []⟩ ∧
    (⟨some 3, []⟩ : StatefulList Nat).current_selection? = none ∧
    (⟨[], 7⟩ : ScrollableText).scroll_down = ⟨[], 7⟩ ∧
    (⟨[], 7⟩ : ScrollableText).scroll_up = ⟨[], 7⟩ ∧
    (⟨[], 7⟩ : ScrollableText).scroll_to_top = { (⟨[], 7⟩ : ScrollableText) with offset := 0 } ∧
    (⟨[], 7⟩ : ScrollableText).scroll_to_bottom? = none :=
  c2_empty_collection_ops (⟨some 3, []⟩ : StatefulList Nat) ⟨[], 7⟩ rfl rfl

/-!  Circular scrolling lemmas. -/

theorem scroll_down_some {T : Type} (s : StatefulList T) (i : Nat)
    (h : s.state = some i) (hi : i < s.items.length) :
    s.scroll_down = ⟨some ((i + 1) % s.items.length), s.items⟩ := by
  obtain ⟨st, its⟩ := s
  cases h
  cases its with
  | nil => simp at hi
  | cons a t =>
    simp only [List.length_cons] at hi ⊢
    show (if (a :: t).isEmpty then _ else _) = _
    rw [if_neg (by simp)]
    simp only [List.length_cons, StatefulList.mk.injEq, and_true,
      Option.some.injEq]
    split_ifs with hle
    · have : i + 1 = t.length + 1 := by omega
      rw [this, Nat.mod_self]
    · rw [Nat.mod_eq_of_lt (by omega)]

theorem scroll_up_some {T : Type} (s : StatefulList T) (i : Nat)
    (h : s.state = some i) (hi : i < s.items.length) :
    s.scroll_up = ⟨some ((i + (s.items.length - 1)) % s.items.length), s.items⟩ := by
  obtain ⟨st, its⟩ := s
  cases h
  cases its with
  | nil => simp at hi
  | cons a t =>
    simp only [List.length_cons] at hi ⊢
    show (if (a :: t).isEmpty then _ else _) = _
    rw [if_neg (by simp)]
    simp only [List.length_cons, StatefulList.mk.injEq, and_true,
      Option.some.injEq]
    split_ifs with hz
    · subst hz
      simp only [Nat.add_sub_cancel, Nat.zero_add]
      exact (Nat.mod_eq_of_lt (by omega)).symm
    · have : i + (t.length + 1 - 1) = (i - 1) + (t.length + 1) := by omega
      rw [this, Nat.add_mod_right, Nat.mod_eq_of_lt (by omega)]

theorem scroll_down_iterate {T : Type} (its : List T) (i k : Nat)
    (hi : i < its.length) :
    StatefulList.scroll_down^[k] (⟨some i, its⟩ : StatefulList T) =
      ⟨some ((i + k) % its.length), its⟩ := by
  induction k with
  | zero => simp [Nat.mod_eq_of_lt hi]
  | succ k ih =>
    rw [Function.iterate_succ_apply', ih,
      scroll_down_some _ ((i + k) % its.length) rfl (Nat.mod_lt _ (by omega))]
    simp only [StatefulList.mk.injEq, and_true, Option.some.injEq]
    rw [Nat.mod_add_mod, Nat.add_assoc]

theorem scroll_up_iterate {T : Type} (its : List T) (i k : Nat)
    (hi : i < its.length) :
    StatefulList.scroll_up^[k] (⟨some i, its⟩ : StatefulList T) =
      ⟨some ((i + k * (its.length - 1)) % its.length), its⟩ := by
  induction k with
  | zero => simp [Nat.mod_eq_of_lt hi]
  | succ k ih =>
    have hpos : 0 < its.length := by omega
    have hlt : (i + k * (its.length - 1)) % its.length < its.length :=
      Nat.mod_lt _ hpos
    rw [Function.iterate_succ_apply', ih,
      scroll_up_some _ ((i + k * (its.length - 1)) % its.length) rfl hlt]
    simp only [StatefulList.mk.injEq, and_true, Option.some.injEq]
    rw [Nat.mod_add_mod]
    congr 1
    ring

/-- C7: on a non-empty collection of length N, N `scroll_down` calls from any
selected index return the selection to that index, and likewise for
`scroll_up`; on an empty collection both are no-ops (spec §8 P2). -/
theorem c7_circular_scroll {T : Type} (s : StatefulList T) (i : Nat)
    (h : s.state = some i) (hi : i < s.items.length) :
    (StatefulList.scroll_down^[s.items.length] s).state = some i ∧
    (StatefulList.scroll_up^[s.items.length] s).state = some i ∧
    ∀ r : StatefulList T, r.items = [] → r.scroll_down = r ∧ r.scroll_up = r := by
  obtain ⟨st, its⟩ := s
  cases h
  simp only at hi ⊢
  refine ⟨?_, ?_, ?_⟩
  · rw [scroll_down_iterate its i its.length hi]
    simp [Nat.add_mod_right, Nat.mod_eq_of_lt hi]
  · rw [scroll_up_iterate its i its.length hi]
    have : i + its.length * (its.length - 1) = i + (its.length - 1) * its.length := by
      ring
    rw [this, Nat.add_mul_mod_self_right, Nat.mod_eq_of_lt hi]
  · intro r hr
    obtain ⟨st', its'⟩ := r
    simp only at hr
    subst hr
    exact ⟨rfl, rfl⟩

/-- C7 witness: three `scroll_down` (and `scroll_up`) calls on a three-item
collection starting at index 1 return to index 1. -/
theorem c7_circular_scroll_witness :
    (StatefulList.scroll_down^[(⟨some 1, [5, 6, 7]⟩ : StatefulList Nat).items.length]
        (⟨some 1, [5, 6, 7]⟩ : StatefulList Nat)).state = some 1 ∧
    (StatefulList.scroll_up^[(⟨some 1, [5, 6, 7]⟩ : StatefulList Nat).items.length]
        (⟨some 1, [5, 6, 7]⟩ : StatefulList Nat)).state = some 1 :=
  ⟨(c7_circular_scroll (⟨some 1, [5, 6, 7]⟩ : StatefulList Nat) 1 rfl (by decide)).1,
   (c7_circular_scroll (⟨some 1, [5, 6, 7]⟩ : StatefulList Nat) 1 rfl (by decide)).2.1⟩

/-!  Marquee lemmas. -/

theorem marquee_advance_eq (width : Nat) (txt : List Char) (o : Nat)
    (hw : width ≤ txt.length) :
    marquee_advance width ⟨txt, o⟩ = ⟨txt, if o < txt.length then o + 1 else 0⟩ := by
  simp only [marquee_advance, HorizontallyScrollableText.scroll_left_or_reset]
  rw [if_pos (by simp [hw])]
  split_ifs with h
  · simp [HorizontallyScrollableText.scroll_left, h]
  · rfl

theorem marquee_iterate (txt : List Char) (width k : Nat)
    (hw : width ≤ txt.length) (hk : k ≤ txt.length) :
    (marquee_advance width)^[k] ⟨txt, 0⟩ = ⟨txt, k⟩ := by
  induction k with
  | zero => rfl
  | succ k ih =>
    rw [Function.iterate_succ_apply', ih (by omega),
      marquee_advance_eq width txt k hw, if_pos (by omega)]

theorem marquee_offset_le (txt : List Char) (width : Nat)
    (hw : width ≤ txt.length) :
    ∀ (k o : Nat), o ≤ txt.length →
      ((marquee_advance width)^[k] ⟨txt, o⟩).offset ≤ txt.length := by
  intro k
  induction k with
  | zero => intro o ho; exact ho
  | succ k ih =>
    intro o ho
    rw [Function.iterate_succ_apply, marquee_advance_eq width txt o hw]
    apply ih
    split_ifs <;> omega

/-- C9 counterexample: the claim says advancing the marquee L times from
offset 0 returns the offset to 0.  For the length-1 text "a" at display
width 1, one advance leaves the offset at 1, not 0. -/
theorem c9_marquee_l_times_cx :
    ((marquee_advance 1)^[cx_marquee_text.text.length] cx_marquee_text).offset ≠ 0 := by
  decide

/-- C9 amended: for a marquee text of character length L (current selection,
scrolling enabled, L at least the display width) starting at offset 0,
advancing L times leaves the offset at L and advancing L + 1 times returns
it to 0 — the offset cycles with period L + 1 and never leaves [0, L]. -/
theorem c9_marquee_cycle (t : HorizontallyScrollableText) (width : Nat)
    (h0 : t.offset = 0) (hw : width ≤ t.text.length) :
    ((marquee_advance width)^[t.text.length] t).offset = t.text.length ∧
    ((marquee_advance width)^[t.text.length + 1] t).offset = 0 ∧
    ∀ k, ((marquee_advance width)^[k] t).offset ≤ t.text.length := by
  obtain ⟨txt, off⟩ := t
  simp only at h0 hw ⊢
  subst h0
  refine ⟨?_, ?_, ?_⟩
  · rw [marquee_iterate txt width txt.length hw (le_refl _)]
  · rw [Function.iterate_succ_apply',
      marquee_iterate txt width txt.length hw (le_refl _),
      marquee_advance_eq width txt txt.length hw, if_neg (by omega)]
  · intro k
    exact marquee_offset_le txt width hw k 0 (by omega)

/-- C9 amended witness: the length-2 text "ab" at width 1, advanced 3 times,
returns to offset 0. -/
theorem c9_marquee_cycle_witness :
    ((marquee_advance 1)^[(⟨['a', 'b'], 0⟩ : HorizontallyScrollableText).text.length + 1]
        (⟨['a', 'b'], 0⟩ : HorizontallyScrollableText)).offset = 0 :=
  (c9_marquee_cycle ⟨['a', 'b'], 0⟩ 1 rfl (by decide)).2.1

/-- C6: six `next` steps from the first add-movie wizard step (select root
folder) return to the first step; one `previous` step from the first step
yields the confirm prompt; and the next-step lookup on any block outside the
matched sequence returns the first step (spec §8 P7 and §4.5). -/
theorem c6_add_movie_wizard (b : ActiveRadarrBlock)
    (hb : b ∉ add_movie_prompt_matched_blocks) :
    ActiveRadarrBlock.next_add_movie_prompt_block^[6]
        ActiveRadarrBlock.AddMovieSelectRootFolder =
      ActiveRadarrBlock.AddMovieSelectRootFolder ∧
    ActiveRadarrBlock.previous_add_movie_prompt_block
        ActiveRadarrBlock.AddMovieSelectRootFolder =
      ActiveRadarrBlock.AddMovieConfirmPrompt ∧
    b.next_add_movie_prompt_block = ActiveRadarrBlock.AddMovieSelectRootFolder := by
  refine ⟨by decide, by decide, ?_⟩
  cases b <;> first | rfl | exact absurd (by decide) hb

/-- C6 witness: instantiated at the Movies block, which is not part of the
wizard sequence. -/
theorem c6_add_movie_wizard_witness :
    ActiveRadarrBlock.next_add_movie_prompt_block^[6]
        ActiveRadarrBlock.AddMovieSelectRootFolder =
      ActiveRadarrBlock.AddMovieSelectRootFolder ∧
    ActiveRadarrBlock.previous_add_movie_prompt_block
        ActiveRadarrBlock.AddMovieSelectRootFolder =
      ActiveRadarrBlock.AddMovieConfirmPrompt ∧
    ActiveRadarrBlock.next_add_movie_prompt_block ActiveRadarrBlock.Movies =
      ActiveRadarrBlock.AddMovieSelectRootFolder :=
  c6_add_movie_wizard ActiveRadarrBlock.Movies (by decide)

/-- C4 counterexample: the claim says the stored query is matched after being
stripped of non-search characters, like the item text.  On the single item
"A.B" with stored query "A.B", the stripped-query predicate of the claim
finds index 0, but `search_table` lowercases the query without stripping it,
finds no match, and lands on the error route with no selection made. -/
theorem c4_search_query_not_stripped_cx :
    search_index_per_claim cx_search_app.table.items ['A', '.', 'B'] = some 0 ∧
    (search_table cx_search_app sample_error_route).navigation_stack =
      [sample_error_route, sample_movies_route] ∧
    (search_table cx_search_app sample_error_route).table.state = none := by
  decide

/-- C4 amended: search finds the first item whose stripped extracted text
contains the lowercase query (the query is lowercased but not stripped); if
found it pops the search-input route and selects that index in the source
collection; if not found it pop-and-pushes the error-display route; in both
cases it clears the is-searching flag and the stored query text. -/
theorem c4_search_table_behavior (app : SearchApp) (q : List Char) (err : Route)
    (hq : app.search = some q) :
    (search_table app err).is_searching = false ∧
    (search_table app err).search = none ∧
    (search_table app err).should_ignore_quit_key = false ∧
    (search_table app err).table.items = app.table.items ∧
    (∀ i,
      (app.table.items.findIdx? fun (item : TitledItem) =>
          contains_substring (strip_non_search_characters item.title)
            (to_lowercase q)) = some i →
      (search_table app err).navigation_stack =
          pop_navigation_stack app.navigation_stack ∧
      (search_table app err).table.state = some i) ∧
    ((app.table.items.findIdx? fun (item : TitledItem) =>
          contains_substring (strip_non_search_characters item.title)
            (to_lowercase q)) = none →
      (search_table app err).navigation_stack =
          pop_and_push_navigation_stack app.navigation_stack err ∧
      (search_table app err).table.state = app.table.state) := by
  obtain ⟨srch, flag₁, flag₂, tbl, nav⟩ := app
  simp only at hq
  subst hq
  cases hidx : (tbl.items.findIdx? fun (item : TitledItem) =>
      contains_substring (strip_non_search_characters item.title)
        (to_lowercase q)) with
  | none =>
    refine ⟨?_, ?_, ?_, ?_, ?_, ?_⟩ <;>
      simp [search_table, hidx, StatefulList.select_index]
  | some i =>
    refine ⟨?_, ?_, ?_, ?_, ?_, ?_⟩ <;>
      simp [search_table, hidx, StatefulList.select_index]

/-- C4 amended witness: items ["Apple", "Banana"] with query "ban" select
index 1 and clear the searching mode (the example of spec §8 P5). -/
theorem c4_search_table_behavior_witness :
    (search_table sample_search_app sample_error_route).table.state = some 1 ∧
    (search_table sample_search_app sample_error_route).is_searching = false := by
  have h := c4_search_table_behavior sample_search_app ['b', 'a', 'n']
    sample_error_route rfl
  exact ⟨(h.2.2.2.2.1 1 (by decide)).2, h.1⟩

/-- C5: filtering with an empty query pops the filter-input route and leaves
the source collection untouched with no filtered collection created; a
non-empty query collects the items whose stripped extracted text contains the
stripped query — on no matches the input route is pop-and-pushed with the
error route and the filtered collection discarded, otherwise the input route
is popped and the filtered collection receives the matches; the is-filtering
flag and the stored query are cleared in all three branches (spec §4.7,
§8 P6). -/
theorem c5_filter_table_behavior (app : FilterApp) (q : List Char) (err : Route)
    (hq : app.filter = some q) :
    (filter_table app err).is_filtering = false ∧
    (filter_table app err).filter = none ∧
    (filter_table app err).should_ignore_quit_key = false ∧
    (filter_table app err).source_table = app.source_table ∧
    (q = [] →
      (filter_table app err).navigation_stack =
          pop_navigation_stack app.navigation_stack ∧
      (filter_table app err).filtered_table = app.filtered_table) ∧
    (q ≠ [] →
      (app.source_table.items.filter fun (item : TitledItem) =>
          contains_substring (strip_non_search_characters item.title)
            (strip_non_search_characters q)) = [] →
      (filter_table app err).navigation_stack =
          pop_and_push_navigation_stack app.navigation_stack err ∧
      (filter_table app err).filtered_table = app.filtered_table) ∧
    (q ≠ [] →
      (app.source_table.items.filter fun (item : TitledItem) =>
          contains_substring (strip_non_search_characters item.title)
            (strip_non_search_characters q)) ≠ [] →
      (filter_table app err).navigation_stack =
          pop_navigation_stack app.navigation_stack ∧
      (filter_table app err).filtered_table =
        app.filtered_table.set_items
          (app.source_table.items.filter fun (item : TitledItem) =>
            contains_substring (strip_non_search_characters item.title)
              (strip_non_search_characters q))) := by
  obtain ⟨flt, flag₁, flag₂, src, ftab, nav⟩ := app
  simp only at hq
  subst hq
  cases q with
  | nil =>
    refine ⟨?_, ?_, ?_, ?_, fun _ => ⟨?_, ?_⟩,
      fun h => absurd rfl h, fun h => absurd rfl h⟩ <;>
      simp [filter_table]
  | cons a qt =>
    cases hm : (src.items.filter fun (item : TitledItem) =>
        contains_substring (strip_non_search_characters item.title)
          (strip_non_search_characters (a :: qt))) with
    | nil =>
      refine ⟨?_, ?_, ?_, ?_, fun h => absurd h (by simp),
        fun _ _ => ⟨?_, ?_⟩, fun _ h => absurd rfl h⟩ <;>
        simp [filter_table, hm]
    | cons m ms =>
      refine ⟨?_, ?_, ?_, ?_, fun h => absurd h (by simp),
        fun _ h => absurd h (by simp), fun _ _ => ⟨?_, ?_⟩⟩ <;>
        simp [filter_table, hm]

/-- C5 witness: items ["Apple", "Banana"] with filter query "ban" produce the
filtered collection ["Banana"] and clear the filtering mode (the example of
spec §8 P6). -/
theorem c5_filter_table_behavior_witness :
    (filter_table sample_filter_app sample_error_route).filtered_table =
      (⟨none, []⟩ : StatefulTable TitledItem).set_items [banana_item] ∧
    (filter_table sample_filter_app sample_error_route).is_filtering = false := by
  have h := c5_filter_table_behavior sample_filter_app ['b', 'a', 'n']
    sample_error_route rfl
  exact ⟨by
    have h2 := (h.2.2.2.2.2.2 (by decide) (by decide)).2
    simpa using h2, h.1⟩

/-!  Dispatcher lemmas. -/

theorem populate_preserves (app a2 : App)
    (h : populate_movie_collection_table app = some a2) :
    a2.data.radarr_data.prompt_confirm = app.data.radarr_data.prompt_confirm ∧
    a2.data.radarr_data.prompt_confirm_action =
      app.data.radarr_data.prompt_confirm_action ∧
    a2.should_refresh = app.should_refresh := by
  unfold populate_movie_collection_table at h
  dsimp only at h
  split at h
  · exact Option.noConfusion h
  · simp only [Option.some.injEq] at h
    subst h
    exact ⟨rfl, rfl, rfl⟩

theorem dispatch_block_effects_fields (b : ActiveRadarrBlock) (app app₀ : App)
    (evs : List RadarrEvent)
    (h : dispatch_block_effects b app = some (app₀, evs)) :
    app₀.data.radarr_data.prompt_confirm = app.data.radarr_data.prompt_confirm ∧
    app₀.data.radarr_data.prompt_confirm_action =
      app.data.radarr_data.prompt_confirm_action ∧
    app₀.should_refresh = app.should_refresh := by
  cases b <;> simp only [dispatch_block_effects] at h
  all_goals try (split at h)
  all_goals
    try (simp only [Option.some.injEq, Prod.mk.injEq] at h
         obtain ⟨rfl, -⟩ := h
         exact ⟨rfl, rfl, rfl⟩)
  all_goals first
    | exact Option.noConfusion h
    | (rename_i a2 hp
       simp only [Option.some.injEq, Prod.mk.injEq] at h
       obtain ⟨rfl, -⟩ := h
       obtain ⟨f1, f2, f3⟩ := populate_preserves _ _ hp
       exact ⟨f1, f2, f3⟩)

theorem check_prompt_noop (app : App)
    (hc : app.data.radarr_data.prompt_confirm = false) :
    check_for_prompt_action app = (app, []) := by
  simp [check_for_prompt_action, hc]

theorem check_prompt_fire (app : App) (e : RadarrEvent)
    (hc : app.data.radarr_data.prompt_confirm = true)
    (ha : app.data.radarr_data.prompt_confirm_action = some e) :
    (check_for_prompt_action app).2 = [e] ∧
    (check_for_prompt_action app).1.data.radarr_data.prompt_confirm = false ∧
    (check_for_prompt_action app).1.data.radarr_data.prompt_confirm_action = none ∧
    (check_for_prompt_action app).1.should_refresh = true := by
  simp [check_for_prompt_action, hc, ha]

/-- C3: with the pending confirmation set to `(true, Some(e))`, one dispatch
cycle — for any active block — fires `e` exactly once, appended after the
block's own fetch events, sets the should-refresh flag, and leaves the
pending confirmation at `(false, None)`; a second dispatch cycle with no new
confirmation fires only its block's own fetch events and leaves the
confirmation cleared (spec §4.6, §8 P8). -/
theorem c3_prompt_confirm_single_fire (b b' : ActiveRadarrBlock) (app : App)
    (e : RadarrEvent) (app' : App) (evs : List RadarrEvent)
    (hc : app.data.radarr_data.prompt_confirm = true)
    (ha : app.data.radarr_data.prompt_confirm_action = some e)
    (hd : dispatch_by_radarr_block b app = some (app', evs)) :
    (∃ app₀ evs₀, dispatch_block_effects b app = some (app₀, evs₀) ∧
        evs = evs₀ ++ [e]) ∧
    app'.data.radarr_data.prompt_confirm = false ∧
    app'.data.radarr_data.prompt_confirm_action = none ∧
    app'.should_refresh = true ∧
    ∀ app'' evs₂, dispatch_by_radarr_block b' app' = some (app'', evs₂) →
      (∃ app₁, dispatch_block_effects b' app' = some (app₁, evs₂)) ∧
      app''.data.radarr_data.prompt_confirm = false ∧
      app''.data.radarr_data.prompt_confirm_action = none := by
  unfold dispatch_by_radarr_block at hd
  cases hE : dispatch_block_effects b app with
  | none => rw [hE] at hd; exact Option.noConfusion hd
  | some pr =>
    obtain ⟨app₀, evs₀⟩ := pr
    rw [hE] at hd
    dsimp only at hd
    simp only [Option.some.injEq, Prod.mk.injEq] at hd
    obtain ⟨happ, hevs⟩ := hd
    obtain ⟨f1, f2, f3⟩ := dispatch_block_effects_fields b app app₀ evs₀ hE
    obtain ⟨g1, g2, g3, g4⟩ := check_prompt_fire app₀ e (f1.trans hc) (f2.trans ha)
    have hp' : app'.data.radarr_data.prompt_confirm = false := by
      rw [← happ]; exact g2
    have hpa' : app'.data.radarr_data.prompt_confirm_action = none := by
      rw [← happ]; exact g3
    refine ⟨⟨app₀, evs₀, rfl, by rw [← hevs, g1]⟩, hp', hpa', ?_, ?_⟩
    · rw [← happ]; exact g4
    · intro app'' evs₂ hd₂
      unfold dispatch_by_radarr_block at hd₂
      cases hE₂ : dispatch_block_effects b' app' with
      | none => rw [hE₂] at hd₂; exact Option.noConfusion hd₂
      | some pr₂ =>
        obtain ⟨app₁, evs₁⟩ := pr₂
        rw [hE₂] at hd₂
        dsimp only at hd₂
        obtain ⟨f1', f2', f3'⟩ := dispatch_block_effects_fields b' app' app₁ evs₁ hE₂
        rw [check_prompt_noop app₁ (f1'.trans hp')] at hd₂
        simp only [Option.some.injEq, Prod.mk.injEq, List.append_nil] at hd₂
        obtain ⟨happ₂, hevs₂⟩ := hd₂
        refine ⟨⟨app₁, by rw [hevs₂]⟩, ?_, ?_⟩
        · rw [← happ₂]; exact f1'.trans hp'
        · rw [← happ₂]; exact f2'.trans hpa'

/-- C3 witness: with block Movies and pending `(true, Some(RefreshAndScan))`,
the dispatch cycle emits the block fetches followed by the confirmed action
exactly once and clears the confirmation. -/
theorem c3_prompt_confirm_single_fire_witness :
    (∃ app₀ evs₀,
        dispatch_block_effects ActiveRadarrBlock.Movies sample_prompt_app =
          some (app₀, evs₀) ∧
        ([RadarrEvent.GetMovies, RadarrEvent.GetDownloads,
          RadarrEvent.RefreshAndScan] : List RadarrEvent) =
          evs₀ ++ [RadarrEvent.RefreshAndScan]) ∧
    ({ data := { radarr_data := sample_radarr_data }, is_loading := false,
       should_refresh := true, is_routing := false, tick_count := 0,
       tick_until_poll := 5 } : App).data.radarr_data.prompt_confirm = false ∧
    ({ data := { radarr_data := sample_radarr_data }, is_loading := false,
       should_refresh := true, is_routing := false, tick_count := 0,
       tick_until_poll := 5 } : App).data.radarr_data.prompt_confirm_action = none ∧
    ({ data := { radarr_data := sample_radarr_data }, is_loading := false,
       should_refresh := true, is_routing := false, tick_count := 0,
       tick_until_poll := 5 } : App).should_refresh = true ∧
    ∀ app'' evs₂,
      dispatch_by_radarr_block ActiveRadarrBlock.Downloads
          { data := { radarr_data := sample_radarr_data }, is_loading := false,
            should_refresh := true, is_routing := false, tick_count := 0,
            tick_until_poll := 5 } = some (app'', evs₂) →
      (∃ app₁,
          dispatch_block_effects ActiveRadarrBlock.Downloads
              { data := { radarr_data := sample_radarr_data }, is_loading := false,
                should_refresh := true, is_routing := false, tick_count := 0,
                tick_until_poll := 5 } = some (app₁, evs₂)) ∧
      app''.data.radarr_data.prompt_confirm = false ∧
      app''.data.radarr_data.prompt_confirm_action = none :=
  c3_prompt_confirm_single_fire ActiveRadarrBlock.Movies
    ActiveRadarrBlock.Downloads sample_prompt_app RadarrEvent.RefreshAndScan
    { data := { radarr_data := sample_radarr_data }, is_loading := false,
      should_refresh := true, is_routing := false, tick_count := 0,
      tick_until_poll := 5 }
    [RadarrEvent.GetMovies, RadarrEvent.GetDownloads, RadarrEvent.RefreshAndScan]
    rfl rfl (by decide)

/-- C8 counterexample: the claim says the periodic refresh set is a strict
subset of the first-render reference set (quality profiles, tags, root
folders, system overview/status).  But `refresh_metadata` also fetches
downloads, which is not in the first-render set, so the periodic set is not
a subset at all. -/
theorem c8_refresh_not_subset_cx :
    RadarrEvent.GetDownloads ∈ (refresh_metadata sample_routing_app).2 ∧
    RadarrEvent.GetDownloads ∉ first_render_reference_events ∧
    ¬ ((refresh_metadata sample_routing_app).2 ⊆ first_render_reference_events) := by
  refine ⟨by decide, by decide, ?_⟩
  intro hsub
  have h1 : RadarrEvent.GetDownloads ∈ (refresh_metadata sample_routing_app).2 := by
    decide
  have h2 : RadarrEvent.GetDownloads ∉ first_render_reference_events := by decide
  exact h2 (hsub h1)

/-!  Preservation lemmas for the periodic-refresh theorem: the dispatch
cycle never changes `is_routing` and always resets the tick counter. -/

theorem check_prompt_routing (app : App) :
    (check_for_prompt_action app).1.is_routing = app.is_routing := by
  unfold check_for_prompt_action
  split
  · dsimp only
    split <;> rfl
  · rfl

theorem populate_routing (app a2 : App)
    (h : populate_movie_collection_table app = some a2) :
    a2.is_routing = app.is_routing := by
  unfold populate_movie_collection_table at h
  dsimp only at h
  split at h
  · exact Option.noConfusion h
  · simp only [Option.some.injEq] at h
    subst h
    rfl

theorem dispatch_block_effects_routing (b : ActiveRadarrBlock) (app app₀ : App)
    (evs : List RadarrEvent)
    (h : dispatch_block_effects b app = some (app₀, evs)) :
    app₀.is_routing = app.is_routing := by
  cases b <;> simp only [dispatch_block_effects] at h
  all_goals try (split at h)
  all_goals
    try (simp only [Option.some.injEq, Prod.mk.injEq] at h
         obtain ⟨rfl, -⟩ := h
         rfl)
  all_goals first
    | exact Option.noConfusion h
    | (rename_i a2 hp
       simp only [Option.some.injEq, Prod.mk.injEq] at h
       obtain ⟨rfl, -⟩ := h
       have hr := populate_routing _ _ hp
       exact hr)

theorem dispatch_resets_tick (b : ActiveRadarrBlock) (app app₂ : App)
    (evs : List RadarrEvent)
    (h : dispatch_by_radarr_block b app = some (app₂, evs)) :
    app₂.is_routing = app.is_routing ∧ app₂.tick_count = 0 := by
  unfold dispatch_by_radarr_block at h
  cases hE : dispatch_block_effects b app with
  | none => rw [hE] at h; exact Option.noConfusion h
  | some pr =>
    obtain ⟨app₀, evs₀⟩ := pr
    rw [hE] at h
    dsimp only at h
    simp only [Option.some.injEq, Prod.mk.injEq] at h
    obtain ⟨happ, -⟩ := h
    rw [← happ]
    exact ⟨(check_prompt_routing app₀).trans
      (dispatch_block_effects_routing b app app₀ evs₀ hE), rfl⟩

/-- C8 amended: on any non-first-render tick whose trigger condition holds —
the application is routing OR the tick counter has reached the polling
interval — the tick handler runs a pending-refresh dispatch first when the
should-refresh flag is set, then dispatches for the active block and then
refreshes quality profiles, tags and downloads, the events in that order;
this periodic refresh set excludes the one-time system overview and status
of the first-render reference set, but because it adds downloads it is not a
subset of that set. -/
theorem c8_periodic_refresh_events (b : ActiveRadarrBlock) (app appF : App)
    (evsF : List RadarrEvent)
    (hcond : app.is_routing = true ∨ app.tick_count % app.tick_until_poll = 0)
    (ht : radarr_on_tick b false app = some (appF, evsF)) :
    (∃ app₂ evs₂ app₃ devs,
        ((app.should_refresh = false ∧ app₂ = app ∧
            evs₂ = ([] : List RadarrEvent)) ∨
         (app.should_refresh = true ∧
            dispatch_by_radarr_block b app = some (app₂, evs₂))) ∧
        dispatch_by_radarr_block b app₂ = some (app₃, devs) ∧
        appF = (refresh_metadata app₃).1 ∧
        evsF = evs₂ ++ (devs ++ (refresh_metadata app₃).2)) ∧
    (refresh_metadata appF).2 =
      [RadarrEvent.GetQualityProfiles, RadarrEvent.GetTags,
       RadarrEvent.GetDownloads] ∧
    RadarrEvent.GetOverview ∉ (refresh_metadata appF).2 ∧
    RadarrEvent.GetStatus ∉ (refresh_metadata appF).2 ∧
    ¬ ((refresh_metadata appF).2 ⊆ first_render_reference_events) := by
  refine ⟨?_, rfl, ?_, ?_, ?_⟩
  · unfold radarr_on_tick at ht
    dsimp only at ht
    rw [if_neg Bool.false_ne_true] at ht
    dsimp only at ht
    cases hsr : app.should_refresh with
    | false =>
      rw [hsr] at ht
      rw [if_neg Bool.false_ne_true] at ht
      dsimp only at ht
      have hcb :
          (app.is_routing || app.tick_count % app.tick_until_poll == 0) = true := by
        rcases hcond with h | h
        · rw [h]
          simp
        · rw [h]
          simp
      rw [if_pos hcb] at ht
      cases hd : dispatch_by_radarr_block b app with
      | none =>
        rw [hd] at ht
        exact Option.noConfusion ht
      | some pr =>
        obtain ⟨app₃, devs⟩ := pr
        rw [hd] at ht
        dsimp only at ht
        simp only [Option.some.injEq, Prod.mk.injEq, List.nil_append] at ht
        obtain ⟨hF, hE⟩ := ht
        exact ⟨app, [], app₃, devs, Or.inl ⟨rfl, rfl, rfl⟩, hd, hF.symm, hE.symm⟩
    | true =>
      rw [hsr] at ht
      rw [if_pos rfl] at ht
      cases hd₂ : dispatch_by_radarr_block b app with
      | none =>
        rw [hd₂] at ht
        exact Option.noConfusion ht
      | some pr₂ =>
        obtain ⟨app₂, evs₂⟩ := pr₂
        rw [hd₂] at ht
        dsimp only at ht
        obtain ⟨hr₂, htk₂⟩ := dispatch_resets_tick b app app₂ evs₂ hd₂
        have hcb :
            (app₂.is_routing || app₂.tick_count % app₂.tick_until_poll == 0) = true := by
          rw [htk₂]
          simp
        rw [if_pos hcb] at ht
        cases hd₃ : dispatch_by_radarr_block b app₂ with
        | none =>
          rw [hd₃] at ht
          exact Option.noConfusion ht
        | some pr₃ =>
          obtain ⟨app₃, devs⟩ := pr₃
          rw [hd₃] at ht
          dsimp only at ht
          simp only [Option.some.injEq, Prod.mk.injEq, List.nil_append] at ht
          obtain ⟨hF, hE⟩ := ht
          exact ⟨app₂, evs₂, app₃, devs, Or.inr ⟨rfl, rfl⟩, hd₃, hF.symm,
            by rw [← hE, List.append_assoc]⟩
  · show RadarrEvent.GetOverview ∉
      [RadarrEvent.GetQualityProfiles, RadarrEvent.GetTags, RadarrEvent.GetDownloads]
    decide
  · show RadarrEvent.GetStatus ∉
      [RadarrEvent.GetQualityProfiles, RadarrEvent.GetTags, RadarrEvent.GetDownloads]
    decide
  · intro hsub
    have h1 : RadarrEvent.GetDownloads ∈ (refresh_metadata appF).2 := by
      show RadarrEvent.GetDownloads ∈
        [RadarrEvent.GetQualityProfiles, RadarrEvent.GetTags, RadarrEvent.GetDownloads]
      decide
    have h2 : RadarrEvent.GetDownloads ∉ first_render_reference_events := by decide
    exact h2 (hsub h1)

/-- C8 amended witness: the Movies block on a tick whose counter has reached
the polling interval (not routing, no pending refresh). -/
theorem c8_periodic_refresh_events_witness :
    (∃ app₂ evs₂ app₃ devs,
        ((sample_tick_app.should_refresh = false ∧ app₂ = sample_tick_app ∧
            evs₂ = ([] : List RadarrEvent)) ∨
         (sample_tick_app.should_refresh = true ∧
            dispatch_by_radarr_block ActiveRadarrBlock.Movies sample_tick_app =
              some (app₂, evs₂))) ∧
        dispatch_by_radarr_block ActiveRadarrBlock.Movies app₂ =
          some (app₃, devs) ∧
        ({ data := { radarr_data := sample_radarr_data }, is_loading := false,
           should_refresh := false, is_routing := false, tick_count := 0,
           tick_until_poll := 5 } : App) = (refresh_metadata app₃).1 ∧
        ([RadarrEvent.GetMovies, RadarrEvent.GetDownloads,
          RadarrEvent.GetQualityProfiles, RadarrEvent.GetTags,
          RadarrEvent.GetDownloads] : List RadarrEvent) =
          evs₂ ++ (devs ++ (refresh_metadata app₃).2)) ∧
    (refresh_metadata
        ({ data := { radarr_data := sample_radarr_data }, is_loading := false,
           should_refresh := false, is_routing := false, tick_count := 0,
           tick_until_poll := 5 } : App)).2 =
      [RadarrEvent.GetQualityProfiles, RadarrEvent.GetTags,
       RadarrEvent.GetDownloads] ∧
    RadarrEvent.GetOverview ∉ (refresh_metadata
        ({ data := { radarr_data := sample_radarr_data }, is_loading := false,
           should_refresh := false, is_routing := false, tick_count := 0,
           tick_until_poll := 5 } : App)).2 ∧
    RadarrEvent.GetStatus ∉ (refresh_metadata
        ({ data := { radarr_data := sample_radarr_data }, is_loading := false,
           should_refresh := false, is_routing := false, tick_count := 0,
           tick_until_poll := 5 } : App)).2 ∧
    ¬ ((refresh_metadata
        ({ data := { radarr_data := sample_radarr_data }, is_loading := false,
           should_refresh := false, is_routing := false, tick_count := 0,
           tick_until_poll := 5 } : App)).2 ⊆ first_render_reference_events) :=
  c8_periodic_refresh_events ActiveRadarrBlock.Movies sample_tick_app
    { data := { radarr_data := sample_radarr_data }, is_loading := false,
      should_refresh := false, is_routing := false, tick_count := 0,
      tick_until_poll := 5 }
    [RadarrEvent.GetMovies, RadarrEvent.GetDownloads,
     RadarrEvent.GetQualityProfiles, RadarrEvent.GetTags,
     RadarrEvent.GetDownloads]
    (Or.inr rfl) (by decide)

end Managarr
